import Mathlib

/-!
# Verification of the SMHB background job workers

Shallow embedding of the job workers of this repository
(`workers/birthdaySlideshowWorker.ts`, `workers/singingSelfieWorker.ts`,
`workers/faceSwapWorker.ts`) and proofs about their claimed properties.

External collaborators (S3, Supabase, the Shotstack/Hedra/Segmind vendors and
the BullMQ queues) are modelled as oracles: an environment record supplies the
outcome of each external call, and a worker run is a pure function from the
environment and the job data to the list of side effects performed plus the
job's final outcome (`Except.error` = the handler threw, BullMQ marks the job
failed; `Except.ok` = the handler returned normally).
-/

namespace SMHB

/-- JS string truthiness fallback `a || b` (empty string is falsy). -/
def jsOr (a b : String) : String := if a = "" then b else a

/-- JS `o || d` where `o` is a possibly-missing string (undefined or falsy empty). -/
def jsOrOpt (o : Option String) (d : String) : String :=
  match o with
  | some s => if s = "" then d else s
  | none => d

/-- JS truthiness of a possibly-missing string: present and non-empty. -/
def optTruthy : Option String → Bool
  | some s => s != ""
  | none => false

/-- The JS regex `\s` whitespace class (ASCII part; the workers only ever meet
spaces in names and genres). -/
def isJsWs (c : Char) : Bool :=
  c = ' ' || c = '\t' || c = '\n' || c = '\r' || c = '\x0b' || c = '\x0c'

/-- `str.replace(/\s+/g, "_")`: every maximal whitespace run becomes one
underscore (`convertSpaceToUnderscore` in both workers). -/
def convertSpaceToUnderscore (s : String) : String :=
  let step : (List Char × Bool) → Char → (List Char × Bool) := fun acc c =>
    if isJsWs c then
      (if acc.2 then acc.1 else acc.1 ++ ['_'], true)
    else (acc.1 ++ [c], false)
  String.mk (s.toList.foldl step ([], false)).1

/-- `str.replace(/\s+/g, '')` (slideshow `normalizeGenreForKey`) and
`str.replace(/\s/g, '')` (selfie worker): both remove every whitespace char. -/
def removeWhitespace (s : String) : String :=
  String.mk (s.toList.filter (fun c => !(isJsWs c)))

/-- `pat` occurs at the head of the second list. -/
def listLeads : List Char → List Char → Bool
  | [], _ => true
  | _ :: _, [] => false
  | a :: as, b :: bs => a == b && listLeads as bs

/-- Some suffix of the list starts with `pat`. -/
def hasSubList (pat : List Char) : List Char → Bool
  | [] => pat.isEmpty
  | c :: rest => listLeads pat (c :: rest) || hasSubList pat rest

/-- JS `hay.includes(pat)`: case-sensitive substring containment. -/
def strIncludes (hay pat : String) : Bool := hasSubList pat.toList hay.toList

/-- Node `path.basename` for the slash-separated URLs the workers feed it:
the segment after the last `/`. -/
def pathBasename (s : String) : String :=
  String.mk (s.toList.foldl (fun acc c => if c = '/' then [] else acc ++ [c]) [])

/-- Model of the AWS SDK `getSignedUrl(s3, GetObjectCommand, {expiresIn})`:
an opaque external call whose result is a time-bounded URL determined by the
bucket, the object key and the expiry. -/
def signedUrlString (bucket key : String) (expiresIn : Nat) : String :=
  "https://" ++ bucket ++ ".s3.amazonaws.com/" ++ key ++ "?X-Amz-Expires=" ++ toString expiresIn

/-! ## Asset Resolver (`findFileInS3` in both workers)

A `ListObjectsV2` page listing either succeeds with the page's object keys or
throws (network/auth). The page list supplies the successive
continuation-token pages. -/

abbrev ListingPage := Except Unit (List String)

/-- The search pattern built by both workers' `findFileInS3`:
whitespace runs of the name become underscores (`convertSpaceToUnderscore`),
whitespace of the genre is removed, and the genre is parenthesised. -/
def s3SearchPattern (name genre suffix : String) : String :=
  convertSpaceToUnderscore name ++ "(" ++ removeWhitespace genre ++ ")" ++ suffix

def findPages (bucket pattern : String) (expiresIn : Nat) : List ListingPage → Option String
  | [] => none
  | .error _ :: _ => none
  | .ok keys :: rest =>
    match keys.find? (fun k => strIncludes k pattern) with
    | some k => some (signedUrlString bucket k expiresIn)
    | none => findPages bucket pattern expiresIn rest

/-- `findFileInS3(bucket, name, genre, searchPatternSuffix)`: walks the
paginated listing and returns a signed URL for the first object whose key
contains the pattern; `none` when the listing is exhausted without a match,
when the bucket name is empty, and also when a listing call throws (the
`catch` branch logs and returns `null`). The module-level S3 client is
assumed initialised (its absence also yields `null`). -/
def findFileInS3 (bucket name genre suffix : String) (expiresIn : Nat)
    (pages : List ListingPage) : Option String :=
  if bucket = "" then none
  else findPages bucket (s3SearchPattern name genre suffix) expiresIn pages

/-- The Asset Resolver pattern as the spec's words describe it: normalization
STRIPS whitespace from both the name and the category. Stated only for
comparison with the source's `s3SearchPattern`, which replaces whitespace
runs in the name by underscores instead of stripping them. -/
def s3SearchPatternSpec (name genre suffix : String) : String :=
  removeWhitespace name ++ "(" ++ removeWhitespace genre ++ ")" ++ suffix

/-- The spec-worded resolver using the stripped-name pattern, for the
refinement comparison in claim C4. -/
def findFileInS3SpecNorm (bucket name genre suffix : String) (expiresIn : Nat)
    (pages : List ListingPage) : Option String :=
  if bucket = "" then none
  else findPages bucket (s3SearchPatternSpec name genre suffix) expiresIn pages

/-! ## Side effects -/

/-- One observable side effect of a worker run. `statusWrite` is a `my_cards`
update that includes the `status` column; `shotstackStatusWrite` updates only
the `shotstack_status` column, `renderIdWrite` only `shotstack_render_id`. -/
inductive Effect where
  | statusWrite (status : String) (errorMessage : Option String)
  | shotstackStatusWrite (s : String)
  | renderIdWrite (id : String)
  | poll (vendorName : String)
  | vendorCall (vendorName : String)
  | publicShareInsert (myCardId : String)
  | shortLinkWrite (link : String)
  | notifyEnqueue (userId ntype message link : String)
  | s3Put (bucket key : String)
  | dbInsert (table userId s3Path : String)
  | jobDataUpdate
  deriving Repr, DecidableEq

/-- The successive values written to the job's `status` column. -/
def statusWrites (tr : List Effect) : List String :=
  tr.filterMap fun e => match e with
    | .statusWrite s _ => some s
    | _ => none

/-- Status writes with their accompanying `error_message`. -/
def statusWritesFull (tr : List Effect) : List (String × Option String) :=
  tr.filterMap fun e => match e with
    | .statusWrite s m => some (s, m)
    | _ => none

def notifications (tr : List Effect) : List (String × String × String × String) :=
  tr.filterMap fun e => match e with
    | .notifyEnqueue u t m l => some (u, t, m, l)
    | _ => none

def s3Puts (tr : List Effect) : List (String × String) :=
  tr.filterMap fun e => match e with
    | .s3Put b k => some (b, k)
    | _ => none

def dbInserts (tr : List Effect) : List (String × String × String) :=
  tr.filterMap fun e => match e with
    | .dbInsert t u p => some (t, u, p)
    | _ => none

def pollsOf (vendorName : String) (tr : List Effect) : Nat :=
  tr.countP fun e => match e with
    | .poll v => v == vendorName
    | _ => false

/-- Whether the trace touches the Shotstack vendor at all (submit or poll). -/
def callsShotstack (tr : List Effect) : Bool :=
  tr.any fun e => match e with
    | .vendorCall v => strIncludes v "shotstack"
    | .poll v => strIncludes v "shotstack"
    | _ => false

/-- Terminal job statuses as the two workers spell them. -/
def isTerminalStatus (s : String) : Bool :=
  s = "complete" || s = "failed" || s = "COMPLETE" || s = "FAILED"

/-- The claim's monotonicity: once a terminal status is written, no further
status write occurs. -/
def noWriteAfterTerminal : List String → Bool
  | [] => true
  | s :: rest => if isTerminalStatus s then rest.isEmpty else noWriteAfterTerminal rest

/-- No status write follows a `complete` write. -/
def noWriteAfterComplete : List String → Bool
  | [] => true
  | s :: rest =>
    if s = "complete" || s = "COMPLETE" then rest.isEmpty else noWriteAfterComplete rest

/-- Every status write after a `failed` write is again `failed`. -/
def failedSticky : List String → Bool
  | [] => true
  | s :: rest =>
    if s = "failed" || s = "FAILED" then rest.all (fun x => x = "failed" || x = "FAILED")
    else failedSticky rest

/-! ## Polling (Shotstack render status, Hedra generation status) -/

/-- `pollingInterval = 20000` ms in both Shotstack loops and the Hedra loop. -/
def pollIntervalMs : Nat := 20000

/-- `pollingTimeout = 15 * 60 * 1000` ms in both Shotstack loops. -/
def ssPollTimeoutMs : Nat := 15 * 60 * 1000

/-- `maxAttempts = 30` in `pollHedraGenerationStatus`. -/
def hedraMaxAttempts : Nat := 30

/-- What one Shotstack status poll yields: the fetch rejects (network error),
returns a non-ok HTTP status, returns a body without `success`/`response`, or
returns a parsed `response` with `status`/`url`/`error`. -/
inductive SSPollEvent where
  | netError (msg : String)
  | httpError (code : Nat)
  | badBody (msg : Option String)
  | status (s : String) (url : Option String) (err : Option String)
  deriving Repr, DecidableEq

inductive SSLoopResult where
  | done (url : String)
  | renderFailed (msg : String)
  | timedOut
  | thrown (msg : String)
  deriving Repr, DecidableEq

/-- The CDN URL both workers derive from a finished render:
`https://cdn.shotstack.io/au/v1/OWNER/basename(rawUrl)`. -/
def cdnUrl (ownerId rawUrl : String) : String :=
  "https://cdn.shotstack.io/au/v1/" ++ ownerId ++ "/" ++ pathBasename rawUrl

/-- Classification of one Shotstack poll, shared by the two loops:
a network error propagates, a non-ok status or malformed body is swallowed
(`wait none`), `done` with a truthy url finishes, `failed` throws with the
vendor reason, anything else (including `done` without a url) keeps waiting
with a well-formed status in hand (`wait (some s)`). -/
inductive SSPollClass where
  | throwNet (msg : String)
  | finish (rawUrl : String)
  | failRender (msg : String)
  | wait (statusForDb : Option String)

def classifySS : SSPollEvent → SSPollClass
  | .netError m => .throwNet m
  | .httpError _ => .wait none
  | .badBody _ => .wait none
  | .status s u e =>
    if s = "done" && optTruthy u then .finish (u.getD "")
    else if s = "failed" then
      .failRender ("Shotstack render failed: " ++ jsOrOpt e "Unknown Shotstack error")
    else .wait (some s)

/-- The slideshow worker's Shotstack polling loop
(`while (Date.now() - startTime < pollingTimeout)`), which sleeps one
interval before each poll and mirrors the observed vendor status into the
`shotstack_status` column whenever it differs from the stored one.
`i` counts completed sleeps, so the loop guard reads
`pollIntervalMs * i < ssPollTimeoutMs`; fuel only makes the recursion
structural and is never exhausted from the entry point. -/
def ssLoopSlideshow (ownerId : String) (events : Nat → SSPollEvent) :
    String → Nat → Nat → List Effect × SSLoopResult
  | _, _, 0 => ([], .timedOut)
  | dbSt, i, fuel+1 =>
    if pollIntervalMs * i < ssPollTimeoutMs then
      match classifySS (events i) with
      | .throwNet m => ([.poll "shotstack"], .thrown m)
      | .finish raw => ([.poll "shotstack"], .done (cdnUrl ownerId raw))
      | .failRender m => ([.poll "shotstack"], .renderFailed m)
      | .wait none =>
        let r := ssLoopSlideshow ownerId events dbSt (i+1) fuel
        (Effect.poll "shotstack" :: r.1, r.2)
      | .wait (some s) =>
        if s ≠ dbSt then
          let r := ssLoopSlideshow ownerId events s (i+1) fuel
          (Effect.poll "shotstack" :: Effect.shotstackStatusWrite s :: r.1, r.2)
        else
          let r := ssLoopSlideshow ownerId events dbSt (i+1) fuel
          (Effect.poll "shotstack" :: r.1, r.2)
    else ([], .timedOut)

/-- The singing-selfie worker's Shotstack polling loop: same timing and
classification, but no `shotstack_status` mirroring. -/
def ssLoopSelfie (ownerId : String) (events : Nat → SSPollEvent) :
    Nat → Nat → List Effect × SSLoopResult
  | _, 0 => ([], .timedOut)
  | i, fuel+1 =>
    if pollIntervalMs * i < ssPollTimeoutMs then
      match classifySS (events i) with
      | .throwNet m => ([.poll "shotstack"], .thrown m)
      | .finish raw => ([.poll "shotstack"], .done (cdnUrl ownerId raw))
      | .failRender m => ([.poll "shotstack"], .renderFailed m)
      | .wait _ =>
        let r := ssLoopSelfie ownerId events (i+1) fuel
        (Effect.poll "shotstack" :: r.1, r.2)
    else ([], .timedOut)

/-- Enough fuel that the wall-clock guard, not the fuel, ends the loop. -/
def ssLoopFuel : Nat := ssPollTimeoutMs / pollIntervalMs + 1

/-- Entry point as the slideshow worker runs it: the stored `shotstack_status`
is `"rendering"` when polling starts (written with `rendering_slideshow`). -/
def ssLoopSlideshowRun (ownerId : String) (events : Nat → SSPollEvent) :
    List Effect × SSLoopResult :=
  ssLoopSlideshow ownerId events "rendering" 0 ssLoopFuel

def ssLoopSelfieRun (ownerId : String) (events : Nat → SSPollEvent) :
    List Effect × SSLoopResult :=
  ssLoopSelfie ownerId events 0 ssLoopFuel

/-- What one Hedra status poll yields. A rejected fetch (or a body that fails
to parse) propagates as a thrown error. -/
inductive HedraPollEvent where
  | netError (msg : String)
  | httpError (code : Nat)
  | status (s : String) (url : Option String) (errMsg : Option String)
  deriving Repr, DecidableEq

/-- `pollHedraGenerationStatus`'s polling loop: at most `maxAttempts = 30`
polls, sleeping one interval after each non-terminal poll (also after a
non-ok HTTP status). Returns `some url` when the vendor reports
`complete` with a truthy url, and `none` both when the vendor reports
`error` (its reason is only logged) and when the attempts are exhausted. -/
def hedraLoop (events : Nat → HedraPollEvent) : Nat → Nat → List Effect × Except String (Option String)
  | _, 0 => ([], .ok none)
  | attempt, fuel+1 =>
    if attempt < hedraMaxAttempts then
      match events attempt with
      | .netError m => ([.poll "hedra"], .error m)
      | .httpError _ =>
        let r := hedraLoop events (attempt+1) fuel
        (Effect.poll "hedra" :: r.1, r.2)
      | .status s u _ =>
        if s = "complete" && optTruthy u then ([.poll "hedra"], .ok (some (u.getD "")))
        else if s = "error" then ([.poll "hedra"], .ok none)
        else
          let r := hedraLoop events (attempt+1) fuel
          (Effect.poll "hedra" :: r.1, r.2)
    else ([], .ok none)

def hedraLoopFuel : Nat := hedraMaxAttempts + 1

/-- Hex digit as the UUID regex `[0-9a-fA-F]` accepts. -/
def isHexDigitChar (c : Char) : Bool :=
  ('0' ≤ c && c ≤ '9') || ('a' ≤ c && c ≤ 'f') || ('A' ≤ c && c ≤ 'F')

/-- Consume exactly `n` hex digits, returning the rest. -/
def takeHexGroup : Nat → List Char → Option (List Char)
  | 0, l => some l
  | _+1, [] => none
  | n+1, c :: l => if isHexDigitChar c then takeHexGroup n l else none

def expectDash : List Char → Option (List Char)
  | '-' :: r => some r
  | _ => none

/-- The regex `[0-9a-fA-F]{8}-(4)-(4)-(4)-(12)` matches starting at the head. -/
def uuidAt (l : List Char) : Bool :=
  (do
    let r ← takeHexGroup 8 l
    let r ← expectDash r
    let r ← takeHexGroup 4 r
    let r ← expectDash r
    let r ← takeHexGroup 4 r
    let r ← expectDash r
    let r ← takeHexGroup 4 r
    let r ← expectDash r
    let _ ← takeHexGroup 12 r
    pure ()).isSome

/-- Leftmost-match search of `fullGenerationId.match(uuid-regex)`. -/
def findUuidAux : List Char → Bool
  | [] => false
  | c :: rest => uuidAt (c :: rest) || findUuidAux rest

def hasUuid (s : String) : Bool := findUuidAux s.toList

/-- `pollHedraGenerationStatus(fullGenerationId)`: extracts the UUID from the
submitted generation id (no UUID: logs and returns `null` without polling),
then runs the 30-attempt polling loop. -/
def pollHedraGenerationStatus (fullGenerationId : String) (events : Nat → HedraPollEvent) :
    List Effect × Except String (Option String) :=
  if hasUuid fullGenerationId then hedraLoop events 0 hedraLoopFuel
  else ([], .ok none)

/-! ## Birthday slideshow worker (`workers/birthdaySlideshowWorker.ts`) -/

/-- `shotstackSlideshowTemplateMapping`: genre key → Shotstack template id. -/
def shotstackSlideshowTemplateMapping : List (String × String) :=
  [("Metal", "d4343b1b-c0f6-4e18-afe6-e37f1f9e3fb8"),
   ("Punk", "2dde82ce-4dff-4755-8a34-f1e50386e30d"),
   ("LatinJazz", "de540b0d-53f9-4437-9212-e3e7c764cb4c"),
   ("OutlawCountry", "b5f3bca2-9589-490c-bb06-08199d7959fa"),
   ("Folk", "e08fb960-94d8-4871-ac5b-47077e1e9adf"),
   ("AltPop", "0237998f-9587-45d1-a313-76faad477831"),
   ("Gospel", "fadc6d68-3b33-481c-9313-1f05f7878824"),
   ("JiveBlues", "2361108b-3ec9-482c-8382-db3d4c12b4d5"),
   ("Jazz", "b6151c01-fb17-40f3-ad23-40d675f15e45"),
   ("Reggae", "cbfa9889-9411-4764-88f9-8decffdf09d4"),
   ("Pop", "310e6e56-451e-4fc4-8392-780a0ab19d1d"),
   ("TradJazz", "04a2cd60-2319-4d21-9630-2e3093926573"),
   ("FolkPop", "98b24939-9e5a-402c-8048-c2f536f43b4b"),
   ("Classical", "5bf760f0-2f58-4104-8e2d-790c3265bc41"),
   ("Country", "7196d8dc-b582-404b-b032-7edc8c9702f0"),
   ("HipHop", "0935cae7-e97d-41d3-b9af-ff583da909cf")]

def slideshowTemplateFor (normalizedKey : String) : Option String :=
  shotstackSlideshowTemplateMapping.lookup normalizedKey

/-- `BirthdaySlideshowJobData`. Optional string fields are `Option`s;
a missing value and a present-but-empty value are both JS-falsy and the
embedding checks truthiness (`optTruthy`) where the source does. -/
structure BirthdaySlideshowJobData where
  jobId : String
  userId : String
  recipientName : String
  displayName : String
  selectedSongGenre : String
  themeRenderUrl : String
  message : Option String
  senderName : String
  imageUrls : List String
  imageStoragePaths : List String
  imageBucket : String
  shotstackApiKey : Option String
  shotstackOwnerId : Option String
  webhookUrl : String
  myCardId : String
  initialThumbnailUrl : Option String
  bespokeBackgroundUrl : Option String

/-- `getImageWithFallback(primary, fallback)` (0-based indices into
`jobData.imageUrls`): the primary element if in range and truthy, else the
fallback element if in range and truthy, else `images[0]`. -/
def getImageWithFallback (images : List String)
    (primaryImageArrayIndex fallbackImageArrayIndex : Nat) : String :=
  if primaryImageArrayIndex < images.length ∧ images.getD primaryImageArrayIndex "" ≠ "" then
    images.getD primaryImageArrayIndex ""
  else if fallbackImageArrayIndex < images.length ∧ images.getD fallbackImageArrayIndex "" ≠ "" then
    images.getD fallbackImageArrayIndex ""
  else images.getD 0 ""

/-- The text/background block of the merge fields (the part before the image
slots), depending on whether a bespoke background URL is truthy. -/
def slideshowTextFields (jd : BirthdaySlideshowJobData) (musicS3Url : String) :
    List (String × String) :=
  if optTruthy jd.bespokeBackgroundUrl then
    [("name", ""), ("greetingbg", jd.bespokeBackgroundUrl.getD ""), ("happy", ""),
     ("alth", ""), ("altn", ""), ("message", ""), ("sender", ""), ("music", musicS3Url)]
  else
    [("name", ""), ("greetingbg", jd.themeRenderUrl), ("happy", ""),
     ("alth", "Happy Birthday"), ("altn", jsOr jd.displayName ""),
     ("message", jsOrOpt jd.message ""), ("sender", jsOr jd.senderName ""),
     ("music", musicS3Url)]

/-- The merge-field list `submitToShotstack` builds (find/replace pairs):
the text block, then the seven image slots. With no images at all every slot
gets `themeRenderUrl`; otherwise slots 1-4 are elements 0-3 and slots 5-7 go
through `getImageWithFallback`. -/
def buildSlideshowMergeFields (jd : BirthdaySlideshowJobData) (musicS3Url : String) :
    List (String × String) :=
  let images := jd.imageUrls
  let imageFields :=
    if images.length = 0 then
      (List.range 7).map (fun i => ("image" ++ toString (i+1), jd.themeRenderUrl))
    else
      [("image1", images.getD 0 ""), ("image2", images.getD 1 ""),
       ("image3", images.getD 2 ""), ("image4", images.getD 3 ""),
       ("image5", getImageWithFallback images 4 1),
       ("image6", getImageWithFallback images 5 2),
       ("image7", getImageWithFallback images 6 0)]
  slideshowTextFields jd musicS3Url ++ imageFields

/-- What the Shotstack submit POST yields: a rejected fetch, a non-ok HTTP
response with its error text, an unparsable body, or a parsed body with
`success`, optional `message` and optional `response.id`. -/
inductive SubmitEvent where
  | netError (msg : String)
  | httpError (code : Nat) (body : String)
  | jsonError (msg : String)
  | body (success : Bool) (message : Option String) (responseId : Option String)
  deriving Repr, DecidableEq

/-- Outcomes of the slideshow worker's external calls. -/
structure SlideshowEnv where
  musicPages : List ListingPage
  submitEvent : SubmitEvent
  pollEvents : Nat → SSPollEvent
  publishInsert : Except Unit (Option String)
  updateLink : Except Unit Unit
  notifyAdd : Except String Unit

/-- `submitToShotstack(jobData)`: template lookup by whitespace-stripped
genre, music lookup in the fixed bucket, merge-field build, then the POST.
The Supabase-style status writes do not happen here; the result is the
render id or the thrown error's message. -/
def submitToShotstack (env : SlideshowEnv) (jd : BirthdaySlideshowJobData) :
    List Effect × Except String String :=
  match jd.shotstackApiKey with
  | none => ([], .error "Shotstack API key is missing in job data.")
  | some _ =>
    match slideshowTemplateFor (removeWhitespace jd.selectedSongGenre) with
    | none => ([], .error ("No Shotstack template ID found for genre: " ++ jd.selectedSongGenre
        ++ " (Normalized: " ++ removeWhitespace jd.selectedSongGenre ++ ")"))
    | some _templateId =>
      match findFileInS3 "smhbaudio547" jd.recipientName jd.selectedSongGenre "_50sec.mp3" 3600
          env.musicPages with
      | none => ([], .error ("Could not find music file in S3 for " ++ jd.recipientName ++ " - "
          ++ jd.selectedSongGenre ++ "_50sec.mp3 in bucket smhbaudio547"))
      | some musicS3Url =>
        let _mergeFields := buildSlideshowMergeFields jd musicS3Url
        match env.submitEvent with
        | .netError m =>
          ([.vendorCall "shotstack-submit"], .error ("Network error during Shotstack API call: " ++ m))
        | .httpError code body =>
          ([.vendorCall "shotstack-submit"],
           .error ("Shotstack API request failed: " ++ toString code ++ " - " ++ body))
        | .jsonError m =>
          ([.vendorCall "shotstack-submit"],
           .error ("Error parsing JSON response from Shotstack: " ++ m))
        | .body success message responseId =>
          if success && optTruthy responseId then
            ([.vendorCall "shotstack-submit"], .ok (responseId.getD ""))
          else
            ([.vendorCall "shotstack-submit"],
             .error (jsOrOpt message "Shotstack submission did not return a success or render ID."))

/-- The post-complete publish step (public_shared_cards insert + shortLink
update). Supabase calls report failure as an error value, not an exception,
so a failing insert or update is only logged; the returned link falls back
to the site root. -/
def publishStep (siteUrl : Option String) (env : SlideshowEnv) (jd : BirthdaySlideshowJobData)
    (shotstackRenderId : String) : List Effect × String :=
  let fallback := jsOrOpt siteUrl "http://localhost:3000"
  if jd.myCardId ≠ "" ∧ shotstackRenderId ≠ "" then
    match env.publishInsert with
    | .error _ => ([.publicShareInsert jd.myCardId], fallback)
    | .ok none => ([.publicShareInsert jd.myCardId], fallback)
    | .ok (some publicCardId) =>
      let constructedShortLink := "/ecard/view/" ++ publicCardId ++ "?renderId=" ++ shotstackRenderId
      match env.updateLink with
      | .error _ => ([.publicShareInsert jd.myCardId, .shortLinkWrite constructedShortLink], fallback)
      | .ok _ =>
        ([.publicShareInsert jd.myCardId, .shortLinkWrite constructedShortLink],
         fallback ++ constructedShortLink)
  else ([], fallback)

/-- The body of the slideshow worker's job processor inside its `try`:
guards, `processing_slideshow` write, submit, `rendering_slideshow` write,
polling loop, timeout/complete handling, publish step, notification enqueue.
An `Except.error` is the thrown error's message. -/
def slideshowWorkerCore (siteUrl : Option String) (env : SlideshowEnv)
    (jd : BirthdaySlideshowJobData) : List Effect × Except String Unit :=
  match jd.shotstackApiKey with
  | none => ([], .error "Shotstack API key missing from job data at worker start.")
  | some _ =>
  match jd.shotstackOwnerId with
  | none => ([], .error "Shotstack Owner ID missing from job data at worker start.")
  | some shotstackOwnerId =>
    let tr0 := [Effect.statusWrite "processing_slideshow" none]
    match submitToShotstack env jd with
    | (trS, .error m) => (tr0 ++ trS, .error m)
    | (trS, .ok shotstackRenderId) =>
      let tr1 := tr0 ++ trS ++ [Effect.statusWrite "rendering_slideshow" none]
      match ssLoopSlideshowRun shotstackOwnerId env.pollEvents with
      | (trL, .thrown m) => (tr1 ++ trL, .error m)
      | (trL, .renderFailed m) => (tr1 ++ trL, .error m)
      | (trL, .timedOut) =>
        (tr1 ++ trL ++ [Effect.statusWrite "failed" (some "Shotstack polling timed out.")],
         .error "Shotstack polling timed out.")
      | (trL, .done _finalVideoUrl) =>
        let tr2 := tr1 ++ trL ++ [Effect.statusWrite "complete" none]
        let pub := publishStep siteUrl env jd shotstackRenderId
        match env.notifyAdd with
        | .error m => (tr2 ++ pub.1, .error m)
        | .ok _ =>
          let cardTitle := jsOr jd.displayName (jsOr jd.recipientName "your slideshow")
          (tr2 ++ pub.1 ++ [Effect.notifyEnqueue jd.userId "card_ready"
            ("Your Birthday Slideshow \"" ++ cardTitle ++ "\" is ready! Click here to view.")
            pub.2], .ok ())

/-- The slideshow worker's job processor: the `try` body wrapped by the
`catch` block, which persists `status: 'failed'` with the error's message
and rethrows to BullMQ. -/
def slideshowWorker (siteUrl : Option String) (env : SlideshowEnv)
    (jd : BirthdaySlideshowJobData) : List Effect × Except String Unit :=
  match slideshowWorkerCore siteUrl env jd with
  | (tr, .ok _) => (tr, .ok ())
  | (tr, .error m) => (tr ++ [Effect.statusWrite "failed" (some m)], .error m)

/-! ## Singing selfie worker (`workers/singingSelfieWorker.ts`) -/

/-- `shotstackTemplateMapping` of the selfie worker. -/
def shotstackTemplateMapping : List (String × String) :=
  [("Metal", "53d55f74-8a8a-4c34-bc2b-c0abfb6d1e2a"),
   ("Punk", "9a6c2d30-384c-4087-b9f1-ced55aef2809"),
   ("LatinJazz", "24b4423d-f2d9-4f72-b7c7-94307732619f"),
   ("OutlawCountry", "e948f56c-12df-4438-86e6-c96dc2e59035"),
   ("Folk", "8e9a90b6-1d6e-46b5-9c07-c35c7325c83c"),
   ("AltPop", "f3e830e3-758b-4873-b572-fceacf4a2f21"),
   ("Gospel", "ce86bafa-151b-4d3f-b755-5f6b32c644fd"),
   ("JiveBlues", "3543ed64-8556-4745-ae90-3c5e754a578b"),
   ("Jazz", "b14a681e-eba1-4557-9082-ea5308f14774"),
   ("Reggae", "9e5217ff-21b4-4086-8f1b-1c60691cd2ed"),
   ("Pop", "019e78b2-7bc3-4f5e-a560-9c2a8964f07b"),
   ("TradJazz", "0e170786-99b5-498d-859a-c7a806c8290c"),
   ("FolkPop", "29f0faa8-597e-43ad-966c-94c2d4bae269"),
   ("Classical", "1e9552c2-be82-42cb-8b2e-4f4aa7e4ef43"),
   ("Country", "71f2a9c6-bfdf-446c-83cb-69786b474023"),
   ("HipHop", "32c13059-ff08-4c89-86b9-dd855cc6acc2")]

def selfieTemplateFor (normalizedGenre : String) : Option String :=
  shotstackTemplateMapping.lookup normalizedGenre

/-- Worker-process configuration the selfie worker reads from the environment. -/
structure SelfieConfig where
  hedraApiKey : Option String
  shotstackApiKey : Option String
  shotstackOwnerId : Option String
  hedraAudioBucket : String
  audioBucket : String
  siteUrl : Option String

structure SingingSelfieJobData where
  jobId : String
  userId : String
  sourceImageUrl : String
  inputImageName : String
  textPrompt : String
  aspectRatio : String
  resolution : String
  songName : String
  displayName : String
  message : Option String
  yourName : String
  themeRenderUrl : String
  genre : String
  initialThumbnailUrl : Option String
  myCardId : String
  bespokeBackgroundUrl : Option String

/-- The merge-field list the selfie worker sends to Shotstack. -/
def buildSelfieMergeFields (jd : SingingSelfieJobData) (hedraVideoUrl musicS3Url : String) :
    List (String × String) :=
  if optTruthy jd.bespokeBackgroundUrl then
    [("hedra", hedraVideoUrl), ("name", ""), ("altn", ""), ("happy", ""), ("alth", ""),
     ("greetingbg", jd.bespokeBackgroundUrl.getD ""), ("message", ""), ("sender", ""),
     ("thumbnail_url", jd.initialThumbnailUrl.getD ""), ("music", musicS3Url),
     ("christmas", ""), ("jinglemusic", "0")]
  else
    [("hedra", hedraVideoUrl), ("name", ""), ("altn", jsOr jd.displayName ""), ("happy", ""),
     ("alth", "Happy Birthday"), ("greetingbg", jd.themeRenderUrl),
     ("message", jsOrOpt jd.message ""), ("sender", jsOr jd.yourName ""),
     ("thumbnail_url", jd.initialThumbnailUrl.getD ""), ("music", musicS3Url),
     ("christmas", ""), ("jinglemusic", "0")]

/-- Outcomes of the selfie worker's external calls, in pipeline order.
`Except.error m` means the call made the handler throw with message `m`
(non-ok fetches throw via the explicit checks in the source). -/
structure SelfieEnv where
  imageFetch : Except String Unit
  audioPages : List ListingPage
  audioFetch : Except String Unit
  modelsResult : Except String (Option String)
  createImageAsset : Except String String
  uploadImageAsset : Except String Unit
  createAudioAsset : Except String String
  uploadAudioAsset : Except String Unit
  submitGeneration : Except String String
  hedraEvents : Nat → HedraPollEvent
  musicPages : List ListingPage
  shotstackSubmit : SubmitEvent
  shotstackEvents : Nat → SSPollEvent
  finalUpdateError : Option String
  publishInsert : Except Unit (Option String)
  notifyAdd : Except String Unit

/-- Modelled from the spec: the tail of the singing-selfie pipeline after the
COMPLETE status write is missing from the source file under `src/` (the file
is truncated right after the `public_shared_cards` insert call). Per the
spec, the publish step creates a public share record and computes a
shareable link, its failure is non-fatal (logged), and a completion
notification is enqueued with the best available link, falling back to the
site root when publish failed; notification-enqueue failure is likewise
non-fatal. -/
def selfiePublishTail (cfg : SelfieConfig) (env : SelfieEnv) (jd : SingingSelfieJobData) :
    List Effect :=
  let fallback := jsOrOpt cfg.siteUrl "http://localhost:3000"
  let pub : List Effect × String :=
    if jd.myCardId ≠ "" then
      match env.publishInsert with
      | .error _ => ([Effect.publicShareInsert jd.myCardId], fallback)
      | .ok none => ([Effect.publicShareInsert jd.myCardId], fallback)
      | .ok (some publicCardId) =>
        let short := "/ecard/view/" ++ publicCardId
        ([Effect.publicShareInsert jd.myCardId, Effect.shortLinkWrite short], fallback ++ short)
    else ([], fallback)
  match env.notifyAdd with
  | .error _ => pub.1
  | .ok _ =>
    pub.1 ++ [Effect.notifyEnqueue jd.userId "card_ready" "Your card is ready! Click here to view." pub.2]

/-- The selfie worker's pipeline inside its `try` (asset fetch, Hedra stage,
polling, Shotstack stage, polling, finalization), given that the three API
keys were present. Status-update Supabase calls report errors as values and
are only warned about, except the final COMPLETE update whose error value is
rethrown by the source. -/
def selfieWorkerCore (cfg : SelfieConfig) (ownerId : String) (env : SelfieEnv)
    (jd : SingingSelfieJobData) : List Effect × Except String Unit :=
  let tr0 := [Effect.statusWrite "PROCESSING_ASSETS" none]
  match env.imageFetch with
  | .error m => (tr0, .error m)
  | .ok _ =>
  match findFileInS3 cfg.hedraAudioBucket jd.songName jd.genre "_30sec_hedra.mp3" 1200
      env.audioPages with
  | none => (tr0, .error ("Hedra audio file not found in S3 for song: " ++ jd.songName
      ++ ", genre: " ++ jd.genre))
  | some _hedraAudioS3Url =>
  match env.audioFetch with
  | .error m => (tr0, .error m)
  | .ok _ =>
  let tr1 := tr0 ++ [Effect.statusWrite "GENERATING_AI_VIDEO" none]
  match env.modelsResult with
  | .error m => (tr1 ++ [.vendorCall "hedra-models"], .error m)
  | .ok none => (tr1 ++ [.vendorCall "hedra-models"], .error "Could not retrieve Hedra model ID")
  | .ok (some _modelId) =>
  let tr2 := tr1 ++ [Effect.vendorCall "hedra-models"]
  match env.createImageAsset with
  | .error m => (tr2 ++ [.vendorCall "hedra-create-image-asset"], .error m)
  | .ok _imageAssetId =>
  let tr3 := tr2 ++ [Effect.vendorCall "hedra-create-image-asset"]
  match env.uploadImageAsset with
  | .error m => (tr3 ++ [.vendorCall "hedra-upload-image"], .error m)
  | .ok _ =>
  let tr4 := tr3 ++ [Effect.vendorCall "hedra-upload-image"]
  match env.createAudioAsset with
  | .error m => (tr4 ++ [.vendorCall "hedra-create-audio-asset"], .error m)
  | .ok _audioAssetId =>
  let tr5 := tr4 ++ [Effect.vendorCall "hedra-create-audio-asset"]
  match env.uploadAudioAsset with
  | .error m => (tr5 ++ [.vendorCall "hedra-upload-audio"], .error m)
  | .ok _ =>
  let tr6 := tr5 ++ [Effect.vendorCall "hedra-upload-audio"]
  match env.submitGeneration with
  | .error m => (tr6 ++ [.vendorCall "hedra-generations"], .error m)
  | .ok hedraGenerationId =>
  let tr7 := tr6 ++ [Effect.vendorCall "hedra-generations"]
  match pollHedraGenerationStatus hedraGenerationId env.hedraEvents with
  | (trH, .error m) => (tr7 ++ trH, .error m)
  | (trH, .ok none) =>
    (tr7 ++ trH,
     .error ("Hedra video generation failed or timed out for Hedra job " ++ hedraGenerationId))
  | (trH, .ok (some hedraVideoUrl)) =>
  let tr8 := tr7 ++ trH ++ [Effect.statusWrite "COMPOSITING_FINAL_VIDEO" none]
  match findFileInS3 cfg.audioBucket jd.songName jd.genre "_30sec.mp3" 1200 env.musicPages with
  | none => (tr8, .error ("Shotstack music file not found in S3 for song: " ++ jd.songName
      ++ ", genre: " ++ jd.genre))
  | some musicS3Url =>
  match selfieTemplateFor (removeWhitespace jd.genre) with
  | none => (tr8, .error ("Shotstack template ID not found for genre: " ++ jd.genre))
  | some _templateId =>
  let _mergeFields := buildSelfieMergeFields jd hedraVideoUrl musicS3Url
  match env.shotstackSubmit with
  | .netError m => (tr8 ++ [.vendorCall "shotstack-submit"], .error m)
  | .httpError _code body =>
    (tr8 ++ [.vendorCall "shotstack-submit"], .error ("Shotstack render submission failed: " ++ body))
  | .jsonError m => (tr8 ++ [.vendorCall "shotstack-submit"], .error m)
  | .body success message responseId =>
    if success && responseId.isSome then
      let shotstackRenderId := responseId.getD ""
      let tr9 := tr8 ++ [Effect.vendorCall "shotstack-submit", Effect.renderIdWrite shotstackRenderId]
      match ssLoopSelfieRun ownerId env.shotstackEvents with
      | (trL, .thrown m) => (tr9 ++ trL, .error m)
      | (trL, .renderFailed m) => (tr9 ++ trL, .error m)
      | (trL, .timedOut) =>
        (tr9 ++ trL ++ [Effect.statusWrite "FAILED" (some "Shotstack polling timed out.")],
         .error "Shotstack polling timed out.")
      | (trL, .done _finalVideoUrl) =>
        let tr10 := tr9 ++ trL ++ [Effect.statusWrite "COMPLETE" none]
        match env.finalUpdateError with
        | some m => (tr10, .error ("Error updating my_cards with final video URL: " ++ m))
        | none => (tr10 ++ selfiePublishTail cfg env jd, .ok ())
    else
      -- the `response.message` fallback inside the template literal is elided
      (tr8 ++ [.vendorCall "shotstack-submit"],
       .error ("Shotstack render failed to queue: " ++ jsOrOpt message "undefined"))

/-- The selfie worker's job processor: config guards before the `try`
(missing keys throw without any status write), the pipeline, and the
`catch`. The catch block lies in the truncated tail of the source file and
is modelled from the spec: a stage failure is translated into a persisted
`FAILED` status with the triggering error's message and re-raised. -/
def selfieWorker (cfg : SelfieConfig) (env : SelfieEnv) (jd : SingingSelfieJobData) :
    List Effect × Except String Unit :=
  match cfg.hedraApiKey, cfg.shotstackApiKey, cfg.shotstackOwnerId with
  | some _, some _, some ownerId =>
    match selfieWorkerCore cfg ownerId env jd with
    | (tr, .ok _) => (tr, .ok ())
    | (tr, .error m) => (tr ++ [Effect.statusWrite "FAILED" (some m)], .error m)
  | _, _, _ => ([], .error "Missing API keys in worker environment.")

/-! ## Face-swap worker (`workers/faceSwapWorker.ts`) -/

/-- The environment variables the face-swap handler checks at the top of the
job callback. JS truthiness: a present-but-empty variable is also missing. -/
structure FaceSwapConfig where
  segmindApiKey : Option String
  siteUrl : Option String
  awsKey : Option String
  awsSecret : Option String
  awsRegion : Option String
  awsS3BucketUser : Option String
  supabaseUrl : Option String
  supabaseServiceRoleKey : Option String
  segmindApiEndpointUrl : Option String

def faceSwapEnvComplete (cfg : FaceSwapConfig) : Bool :=
  optTruthy cfg.segmindApiKey && optTruthy cfg.siteUrl && optTruthy cfg.awsKey &&
  optTruthy cfg.awsSecret && optTruthy cfg.awsRegion && optTruthy cfg.awsS3BucketUser &&
  optTruthy cfg.supabaseUrl && optTruthy cfg.supabaseServiceRoleKey &&
  optTruthy cfg.segmindApiEndpointUrl

/-- One row of `faceswap_templates.csv`. -/
structure TemplateRecord where
  ID : String
  Name : String
  Image : String
  RenderImage : String
  deriving Repr, DecidableEq

/-- Model of `new URL(relative, base).toString()` for the worker's use:
an absolute URL wins, otherwise the path resolves against the site URL. -/
def resolveUrl (base rel : String) : String :=
  if listLeads "http".toList rel.toList then rel else base ++ rel

structure FaceSwapJobPayload where
  imageUrl : String
  templateId : String
  userId : Option String

structure FaceSwapJob where
  id : String
  name : String
  data : FaceSwapJobPayload

/-- What the Segmind POST yields: the request-level timeout fired (AbortError),
the fetch rejected, a non-ok HTTP response, or a parsed body with an optional
base64 `image`. -/
inductive SegmindEvent where
  | abortTimeout
  | netError (msg : String)
  | httpError (code : Nat) (body : String)
  | ok (image : Option String)
  deriving Repr, DecidableEq

/-- Outcomes of the face-swap worker's external calls. -/
structure FaceSwapEnv where
  csvRecords : Except String (List TemplateRecord)
  sourceImage : Except String String
  targetImage : Except String String
  segmind : SegmindEvent
  s3PutOk : Except Unit Unit
  insertResult : Except Unit (Option String)
  notifyAdd : Except String Unit

/-- The template-URL lookup (CSV read + find by ID + URL resolution); any
throw inside its `try` is converted by its `catch` into
"Failed to load template data.". -/
def fetchTemplateUrl (cfg : FaceSwapConfig) (env : FaceSwapEnv) (templateId : String) :
    Except String String :=
  match env.csvRecords with
  | .error _ => .error "Failed to load template data."
  | .ok records =>
    match records.find? (fun r => r.ID == templateId) with
    | none => .error "Failed to load template data."
    | some templateRecord =>
      if templateRecord.RenderImage = "" then .error "Failed to load template data."
      else
        match cfg.siteUrl with
        | none => .error "Failed to load template data."
        | some siteUrl => .ok (resolveUrl siteUrl templateRecord.RenderImage)

/-- The value a completed face-swap job returns (stored in `job.returnvalue`). -/
structure FaceSwapReturn where
  s3Path : String
  databaseId : Option String
  deriving Repr, DecidableEq

/-- The face-swap worker's job processor: env check, then — only for jobs
named `generate` — template lookup, both image downloads, the Segmind call,
the S3 put, the `my_faceswaps` insert, the notification enqueue and the
Redis job-data update. Any other job name falls through the single `if` and
returns `undefined` (success with no effects). -/
def faceSwapWorker (cfg : FaceSwapConfig) (env : FaceSwapEnv) (job : FaceSwapJob) :
    List Effect × Except String (Option FaceSwapReturn) :=
  if !faceSwapEnvComplete cfg then
    ([], .error "Missing required environment variables for job execution.")
  else if job.name = "generate" then
    match job.data.userId with
    | none => ([], .error "User ID is required for faceswap job.")
    | some userId =>
      match fetchTemplateUrl cfg env job.data.templateId with
      | .error m => ([], .error m)
      | .ok _templateRenderImageUrl =>
        match env.sourceImage with
        | .error m => ([], .error m)
        | .ok _sourceImageBase64 =>
        match env.targetImage with
        | .error m => ([], .error m)
        | .ok _targetImageBase64 =>
        match env.segmind with
        | .abortTimeout =>
          ([.vendorCall "segmind"], .error ("Segmind API call timed out for job " ++ job.id ++ "."))
        | .netError m => ([.vendorCall "segmind"], .error m)
        | .httpError code _body =>
          ([.vendorCall "segmind"],
           .error ("Segmind API request failed with status " ++ toString code))
        | .ok none => ([.vendorCall "segmind"], .error "Faceswap failed: No image data returned.")
        | .ok (some _resultBase64) =>
          let s3Key := "user_faceswaps/" ++ userId ++ "/" ++ job.id ++ ".jpg"
          let bucket := cfg.awsS3BucketUser.getD ""
          let tr1 := [Effect.vendorCall "segmind", Effect.s3Put bucket s3Key]
          match env.s3PutOk with
          | .error _ => (tr1, .error "Failed to upload faceswap image to S3.")
          | .ok _ =>
          let tr2 := tr1 ++ [Effect.dbInsert "my_faceswaps" userId s3Key]
          match env.insertResult with
          | .error _ => (tr2, .error "Failed to save faceswap record to database.")
          | .ok insertId =>
            match insertId with
            | some faceswapId =>
              let notificationLink :=
                jsOrOpt cfg.siteUrl "http://localhost:3000" ++ "/profile?faceswapId=" ++ faceswapId
              match env.notifyAdd with
              | .error m => (tr2, .error m)
              | .ok _ =>
                (tr2 ++ [Effect.notifyEnqueue userId "faceswap_complete"
                    "Your faceswap is ready! Click here to view." notificationLink,
                  Effect.jobDataUpdate],
                 .ok (some { s3Path := s3Key, databaseId := some faceswapId }))
            | none =>
              (tr2 ++ [Effect.jobDataUpdate],
               .ok (some { s3Path := s3Key, databaseId := none }))
  else ([], .ok none)

/-! ## Concrete fixtures used by witnesses and counterexamples -/

def jdSlideshow : BirthdaySlideshowJobData :=
  { jobId := "job-1", userId := "user-1", recipientName := "Anna", displayName := "Anna",
    selectedSongGenre := "Pop", themeRenderUrl := "https://theme/render.png",
    message := some "Happy birthday!", senderName := "Ben",
    imageUrls := ["https://img/1.jpg", "https://img/2.jpg", "https://img/3.jpg", "https://img/4.jpg"],
    imageStoragePaths := [], imageBucket := "smhb-images",
    shotstackApiKey := some "key", shotstackOwnerId := some "owner42",
    webhookUrl := "https://hook", myCardId := "card-9",
    initialThumbnailUrl := some "https://thumb.jpg", bespokeBackgroundUrl := none }

/-- A fully successful slideshow environment: the music file is listed, the
submit returns render id `render-1`, the first poll reports `done`, the
publish insert returns id `pub-7`, the notification enqueue succeeds. -/
def envHappy : SlideshowEnv :=
  { musicPages := [Except.ok ["Anna(Pop)_50sec.mp3"]],
    submitEvent := .body true none (some "render-1"),
    pollEvents := fun _ => .status "done" (some "https://shotstack/raw/abcd.mp4") none,
    publishInsert := .ok (some "pub-7"), updateLink := .ok (), notifyAdd := .ok () }

/-- Same, but the notification enqueue rejects after the complete write. -/
def envNotifyFail : SlideshowEnv := { envHappy with notifyAdd := .error "Redis connection lost" }

/-- Same, but the public-share insert reports an error value. -/
def envPubFail : SlideshowEnv := { envHappy with publishInsert := .error () }

/-- Same, but the very first status poll's fetch rejects (network error). -/
def envNetPoll : SlideshowEnv := { envHappy with pollEvents := fun _ => .netError "connect ECONNRESET" }

def selfieCfg : SelfieConfig :=
  { hedraApiKey := some "hk", shotstackApiKey := some "sk", shotstackOwnerId := some "owner42",
    hedraAudioBucket := "smhb-hedra-audio", audioBucket := "smhb-audio",
    siteUrl := some "https://smhb.example" }

def selfieJd : SingingSelfieJobData :=
  { jobId := "job-7", userId := "user-7", sourceImageUrl := "https://img/src.jpg",
    inputImageName := "selfie.jpg", textPrompt := "sing", aspectRatio := "9:16",
    resolution := "540p", songName := "Anna", displayName := "Anna", message := some "hi",
    yourName := "Ben", themeRenderUrl := "https://theme.png", genre := "Pop",
    initialThumbnailUrl := some "https://thumb.png", myCardId := "card-7",
    bespokeBackgroundUrl := none }

def hedraGenIdC3 : String := "123e4567-e89b-12d3-a456-426614174000"

/-- A selfie environment in which every pre-polling stage succeeds and the
Hedra vendor reports its own terminal `error` status with the given reason
on the first poll; the Shotstack stage would succeed if it were reached. -/
def selfieEnvHedraError (reason : String) : SelfieEnv :=
  { imageFetch := .ok (), audioPages := [Except.ok ["Anna(Pop)_30sec_hedra.mp3"]],
    audioFetch := .ok (), modelsResult := .ok (some "model-1"),
    createImageAsset := .ok "img-asset", uploadImageAsset := .ok (),
    createAudioAsset := .ok "aud-asset", uploadAudioAsset := .ok (),
    submitGeneration := .ok hedraGenIdC3,
    hedraEvents := fun _ => .status "error" none (some reason),
    musicPages := [Except.ok ["Anna(Pop)_30sec.mp3"]],
    shotstackSubmit := .body true none (some "render-1"),
    shotstackEvents := fun _ => .status "done" (some "https://shotstack/raw/final.mp4") none,
    finalUpdateError := none, publishInsert := .ok (some "pub-1"), notifyAdd := .ok () }

def faceSwapCfg : FaceSwapConfig :=
  { segmindApiKey := some "sg-key", siteUrl := some "https://smhb.example", awsKey := some "AK",
    awsSecret := some "SK", awsRegion := some "eu-west-2", awsS3BucketUser := some "smhb-user",
    supabaseUrl := some "https://db.example", supabaseServiceRoleKey := some "service-key",
    segmindApiEndpointUrl := some "https://api.segmind.com/faceswap" }

/-- A face-swap environment whose stub vendor returns a fixed base64 image and
whose insert returns the new row id `row-77`. -/
def templateT1 : TemplateRecord :=
  { ID := "T1", Name := "Birthday", Image := "/t1_thumb.png", RenderImage := "/t1_render.png" }

def faceSwapEnvHappy : FaceSwapEnv :=
  { csvRecords := .ok [templateT1],
    sourceImage := .ok "c291cmNl", targetImage := .ok "dGFyZ2V0",
    segmind := .ok (some "Zml4ZWRpbWFnZQ"), s3PutOk := .ok (),
    insertResult := .ok (some "row-77"), notifyAdd := .ok () }

def faceSwapJobJ1 : FaceSwapJob :=
  { id := "J1", name := "generate",
    data := { imageUrl := "https://img/src.jpg", templateId := "T1", userId := some "U1" } }

/-- Four images with an empty second element: the fallback for `image5`
(element 1) is falsy, so the code falls through to element 0. -/
def jdC9 : BirthdaySlideshowJobData :=
  { jdSlideshow with imageUrls := ["https://img/a.jpg", "", "https://img/c.jpg", "https://img/d.jpg"] }

/-! ## Trace lemmas -/

theorem statusWrites_append (a b : List Effect) :
    statusWrites (a ++ b) = statusWrites a ++ statusWrites b :=
  List.filterMap_append a b _

theorem notifications_append (a b : List Effect) :
    notifications (a ++ b) = notifications a ++ notifications b :=
  List.filterMap_append a b _

theorem statusWrites_nil : statusWrites [] = [] := rfl

theorem statusWrites_cons (e : Effect) (tr : List Effect) :
    statusWrites (e :: tr) =
      (match e with | Effect.statusWrite s _ => [s] | _ => []) ++ statusWrites tr := by
  cases e <;> rfl

theorem notifications_nil : notifications [] = [] := rfl

theorem notifications_cons (e : Effect) (tr : List Effect) :
    notifications (e :: tr) =
      (match e with | Effect.notifyEnqueue u t m l => [(u, t, m, l)] | _ => []) ++
        notifications tr := by
  cases e <;> rfl

theorem pollsOf_cons_poll_same (v : String) (tr : List Effect) :
    pollsOf v (Effect.poll v :: tr) = pollsOf v tr + 1 := by
  simp [pollsOf, List.countP_cons]

theorem pollsOf_cons_ssWrite (v s : String) (tr : List Effect) :
    pollsOf v (Effect.shotstackStatusWrite s :: tr) = pollsOf v tr := by
  simp [pollsOf, List.countP_cons]

/-- Effects a Shotstack polling loop may emit. -/
def isPollOrSsWrite : Effect → Bool
  | .poll _ => true
  | .shotstackStatusWrite _ => true
  | _ => false

theorem statusWrites_eq_nil_of (tr : List Effect) (h : ∀ e ∈ tr, isPollOrSsWrite e = true) :
    statusWrites tr = [] := by
  refine List.filterMap_eq_nil_iff.mpr (fun e he => ?_)
  rcases e <;> first | rfl | exact absurd (h _ he) (by simp [isPollOrSsWrite])

theorem notifications_eq_nil_of (tr : List Effect) (h : ∀ e ∈ tr, isPollOrSsWrite e = true) :
    notifications tr = [] := by
  refine List.filterMap_eq_nil_iff.mpr (fun e he => ?_)
  rcases e <;> first | rfl | exact absurd (h _ he) (by simp [isPollOrSsWrite])

theorem ssLoopSlideshow_trace_shape (ownerId : String) (events : Nat → SSPollEvent) :
    ∀ fuel i db, ∀ e ∈ (ssLoopSlideshow ownerId events db i fuel).1, isPollOrSsWrite e = true := by
  intro fuel
  induction fuel with
  | zero => intro i db e he; simp [ssLoopSlideshow] at he
  | succ f ih =>
    intro i db e he
    simp only [ssLoopSlideshow] at he
    split at he
    · cases hcl : classifySS (events i) with
      | throwNet m => rw [hcl] at he; simp at he; simp [he, isPollOrSsWrite]
      | finish raw => rw [hcl] at he; simp at he; simp [he, isPollOrSsWrite]
      | failRender m => rw [hcl] at he; simp at he; simp [he, isPollOrSsWrite]
      | wait o =>
        rw [hcl] at he
        cases o with
        | none =>
          simp at he
          rcases he with rfl | he
          · rfl
          · exact ih (i+1) db e he
        | some s =>
          by_cases hs : s ≠ db
          · simp [hs] at he
            rcases he with rfl | rfl | he
            · rfl
            · rfl
            · exact ih (i+1) s e he
          · simp [hs] at he
            rcases he with rfl | he
            · rfl
            · exact ih (i+1) db e he
    · simp at he

theorem ssLoopSlideshowRun_statusWrites (ownerId : String) (events : Nat → SSPollEvent) :
    statusWrites (ssLoopSlideshowRun ownerId events).1 = [] :=
  statusWrites_eq_nil_of _ (ssLoopSlideshow_trace_shape ownerId events ssLoopFuel 0 "rendering")

theorem ssLoopSlideshowRun_notifications (ownerId : String) (events : Nat → SSPollEvent) :
    notifications (ssLoopSlideshowRun ownerId events).1 = [] :=
  notifications_eq_nil_of _ (ssLoopSlideshow_trace_shape ownerId events ssLoopFuel 0 "rendering")

theorem submitToShotstack_trace_shape (env : SlideshowEnv) (jd : BirthdaySlideshowJobData) :
    statusWrites (submitToShotstack env jd).1 = [] ∧
    notifications (submitToShotstack env jd).1 = [] := by
  unfold submitToShotstack
  repeat' split
  all_goals simp [statusWrites, notifications]

theorem publishStep_trace_shape (siteUrl : Option String) (env : SlideshowEnv)
    (jd : BirthdaySlideshowJobData) (renderId : String) :
    statusWrites (publishStep siteUrl env jd renderId).1 = [] ∧
    notifications (publishStep siteUrl env jd renderId).1 = [] := by
  unfold publishStep
  repeat' split
  all_goals simp [statusWrites, notifications]

/-! ## Claim C4 — Asset Resolver match semantics -/

/-- C4: the claim says pattern normalization STRIPS whitespace from the name;
the source replaces whitespace runs in the name by underscores. For the name
"Mary Lou" the spec-worded resolver finds the key `MaryLou(Pop)_50sec.mp3`,
while the code's resolver (pattern `Mary_Lou(Pop)_50sec.mp3`) returns `none`
on the same listing. -/
theorem c4_counterexample :
    findFileInS3SpecNorm "smhbaudio547" "Mary Lou" "Pop" "_50sec.mp3" 3600
        [Except.ok ["MaryLou(Pop)_50sec.mp3"]] =
      some (signedUrlString "smhbaudio547" "MaryLou(Pop)_50sec.mp3" 3600) ∧
    findFileInS3 "smhbaudio547" "Mary Lou" "Pop" "_50sec.mp3" 3600
        [Except.ok ["MaryLou(Pop)_50sec.mp3"]] = none ∧
    s3SearchPattern "Mary Lou" "Pop" "_50sec.mp3" = "Mary_Lou(Pop)_50sec.mp3" :=
  ⟨rfl, rfl, rfl⟩

/-- C4 (amended): the resolver's match is case-sensitive substring containment
of `convertSpaceToUnderscore(name) ++ "(" ++ removeWhitespace(genre) ++ ")" ++ suffix`
in a listed key — whitespace in the name becomes underscores, whitespace in
the category is removed — and over a successful paginated listing the result
is precisely the first matching key in listing order, mapped to a signed URL
derived from that key, with `none` when no key matches. -/
theorem c4_amended (bucket name genre suffix : String) (expiresIn : Nat)
    (pages : List (List String)) (hb : bucket ≠ "") :
    findFileInS3 bucket name genre suffix expiresIn (pages.map Except.ok) =
      (pages.flatten.find? (fun k => strIncludes k (s3SearchPattern name genre suffix))).map
        (fun k => signedUrlString bucket k expiresIn) := by
  unfold findFileInS3
  rw [if_neg hb]
  induction pages with
  | nil => rfl
  | cons page rest ih =>
    simp only [List.map_cons, List.flatten_cons, List.find?_append]
    rw [findPages]
    cases hf : page.find? (fun k => strIncludes k (s3SearchPattern name genre suffix)) with
    | some k => simp [hf, Option.or]
    | none => simpa [hf, Option.or] using ih

/-- C4 witness: the amended characterization applied to a two-page listing in
which exactly the second key matches. -/
theorem c4_witness :
    findFileInS3 "smhbaudio547" "Mary Lou" "Pop" "_50sec.mp3" 3600
        ([["other.mp3"], ["Mary_Lou(Pop)_50sec.mp3"]].map Except.ok) =
      ([["other.mp3"], ["Mary_Lou(Pop)_50sec.mp3"]].flatten.find?
        (fun k => strIncludes k (s3SearchPattern "Mary Lou" "Pop" "_50sec.mp3"))).map
        (fun k => signedUrlString "smhbaudio547" k 3600) ∧
    ("smhbaudio547" : String) ≠ "" :=
  ⟨c4_amended "smhbaudio547" "Mary Lou" "Pop" "_50sec.mp3" 3600
      [["other.mp3"], ["Mary_Lou(Pop)_50sec.mp3"]] (by decide),
   by decide⟩

/-! ## Claim C5 — listing failure vs not-found -/

/-- C5: the claim says a failing listing call raises a signal distinguishable
from the `not found` null result. In the source the `catch` branch returns
the very same `null`: a listing that throws on its first page and a listing
with no matching key produce identical results. -/
theorem c5_counterexample :
    findFileInS3 "smhbaudio547" "Anna" "Pop" "_50sec.mp3" 3600 [Except.error ()] = none ∧
    findFileInS3 "smhbaudio547" "Anna" "Pop" "_50sec.mp3" 3600 [Except.ok []] = none ∧
    findFileInS3 "smhbaudio547" "Anna" "Pop" "_50sec.mp3" 3600 [Except.error ()] =
      findFileInS3 "smhbaudio547" "Anna" "Pop" "_50sec.mp3" 3600 [Except.ok []] :=
  ⟨rfl, rfl, rfl⟩

/-- C5 (amended): a failure of the underlying listing call is caught, logged
and collapsed into the same `null` as `not found` — for every input, a
listing that throws immediately yields `none`, exactly the result of an
exhausted listing, so the caller cannot tell the two apart. -/
theorem c5_amended (bucket name genre suffix : String) (expiresIn : Nat) (rest : List ListingPage) :
    findFileInS3 bucket name genre suffix expiresIn (Except.error () :: rest) = none ∧
    findFileInS3 bucket name genre suffix expiresIn [] = none := by
  unfold findFileInS3
  constructor <;> split <;> rfl

/-! ## Claim C8 — face-swap end-to-end scenario -/

/-- C8: for the face-swap job `J1` of user `U1` with template `T1` and a stub
vendor returning a fixed base64 image, the worker performs exactly one object
store put under `user_faceswaps/U1/J1.jpg`, exactly one `my_faceswaps` insert
recording that key, and enqueues exactly one notification whose link carries
the inserted row's id `row-77`; the handler returns that path and id. -/
theorem c8_face_swap_end_to_end :
    s3Puts (faceSwapWorker faceSwapCfg faceSwapEnvHappy faceSwapJobJ1).1 =
      [("smhb-user", "user_faceswaps/U1/J1.jpg")] ∧
    dbInserts (faceSwapWorker faceSwapCfg faceSwapEnvHappy faceSwapJobJ1).1 =
      [("my_faceswaps", "U1", "user_faceswaps/U1/J1.jpg")] ∧
    notifications (faceSwapWorker faceSwapCfg faceSwapEnvHappy faceSwapJobJ1).1 =
      [("U1", "faceswap_complete", "Your faceswap is ready! Click here to view.",
        "https://smhb.example/profile?faceswapId=row-77")] ∧
    strIncludes "https://smhb.example/profile?faceswapId=row-77" "row-77" = true ∧
    (faceSwapWorker faceSwapCfg faceSwapEnvHappy faceSwapJobJ1).2 =
      .ok (some { s3Path := "user_faceswaps/U1/J1.jpg", databaseId := some "row-77" }) := by
  refine ⟨rfl, rfl, rfl, by decide, rfl⟩

/-! ## Claim C10 — unrecognized job names -/

/-- C10: with the worker's environment variables all present, a face-swap
queue message whose job name is not `generate` makes the handler perform no
effect at all and return successfully with no value. -/
theorem c10_unrecognized_name_is_noop (cfg : FaceSwapConfig) (env : FaceSwapEnv)
    (job : FaceSwapJob) (hcfg : faceSwapEnvComplete cfg = true) (hname : job.name ≠ "generate") :
    faceSwapWorker cfg env job = ([], .ok none) := by
  unfold faceSwapWorker
  simp [hcfg, hname]

/-- C10 witness: a concrete `cleanup`-named job on a fully configured worker. -/
theorem c10_witness :
    faceSwapWorker faceSwapCfg faceSwapEnvHappy { faceSwapJobJ1 with name := "cleanup" } =
      ([], .ok none) ∧
    faceSwapEnvComplete faceSwapCfg = true :=
  ⟨c10_unrecognized_name_is_noop faceSwapCfg faceSwapEnvHappy _ (by decide) (by decide), by decide⟩

/-! ## Claim C3 — stage-2 vendor failure handling -/

/-- C3: when the Hedra vendor reports its own terminal failure, the persisted
message is the generic "failed or timed out" text naming only the Hedra job
handle; for the vendor reason "face not detected" the persisted message does
not contain the reason, contrary to the claim. -/
theorem c3_counterexample :
    (selfieWorker selfieCfg (selfieEnvHedraError "face not detected") selfieJd).2 =
      .error ("Hedra video generation failed or timed out for Hedra job " ++ hedraGenIdC3) ∧
    statusWritesFull (selfieWorker selfieCfg (selfieEnvHedraError "face not detected") selfieJd).1 =
      [("PROCESSING_ASSETS", none), ("GENERATING_AI_VIDEO", none),
       ("FAILED", some ("Hedra video generation failed or timed out for Hedra job " ++ hedraGenIdC3))] ∧
    strIncludes ("Hedra video generation failed or timed out for Hedra job " ++ hedraGenIdC3)
      "face not detected" = false :=
  ⟨rfl, rfl, by decide⟩

/-- C3 (amended): on a stage-2 (Hedra) vendor-reported terminal failure the
worker persists status FAILED — but with the generic message
"Hedra video generation failed or timed out for Hedra job <handle>", which
is independent of the vendor-supplied reason (the reason is only logged) —
and the stage-3 vendor (Shotstack) is never called in that execution. -/
theorem c3_stage2_failure_no_stage3 (reason : String) :
    (selfieWorker selfieCfg (selfieEnvHedraError reason) selfieJd).2 =
      .error ("Hedra video generation failed or timed out for Hedra job " ++ hedraGenIdC3) ∧
    statusWritesFull (selfieWorker selfieCfg (selfieEnvHedraError reason) selfieJd).1 =
      [("PROCESSING_ASSETS", none), ("GENERATING_AI_VIDEO", none),
       ("FAILED", some ("Hedra video generation failed or timed out for Hedra job " ++ hedraGenIdC3))] ∧
    callsShotstack (selfieWorker selfieCfg (selfieEnvHedraError reason) selfieJd).1 = false :=
  ⟨rfl, rfl, rfl⟩

/-! ## Claim C2 — polling intervals and ceilings -/

theorem ssLoopSlideshow_waiting (ownerId : String) (events : Nat → SSPollEvent)
    (h : ∀ k, ∃ s, classifySS (events k) = SSPollClass.wait (some s)) :
    ∀ fuel i db, 45 - i < fuel →
      (ssLoopSlideshow ownerId events db i fuel).2 = SSLoopResult.timedOut ∧
      pollsOf "shotstack" (ssLoopSlideshow ownerId events db i fuel).1 = 45 - i := by
  intro fuel
  induction fuel with
  | zero => intro i db hf; exact absurd hf (Nat.not_lt_zero _)
  | succ f ih =>
    intro i db hf
    by_cases hi : pollIntervalMs * i < ssPollTimeoutMs
    · have hi45 : i < 45 := by unfold pollIntervalMs ssPollTimeoutMs at hi; omega
      obtain ⟨s, hs⟩ := h i
      by_cases hd : s ≠ db
      · have hrec := ih (i+1) s (by omega)
        simp only [ssLoopSlideshow, if_pos hi, hs, if_pos hd]
        refine ⟨hrec.1, ?_⟩
        show pollsOf "shotstack" (Effect.poll "shotstack" :: Effect.shotstackStatusWrite s ::
          (ssLoopSlideshow ownerId events s (i+1) f).1) = 45 - i
        rw [pollsOf_cons_poll_same, pollsOf_cons_ssWrite, hrec.2]
        omega
      · have hrec := ih (i+1) db (by omega)
        simp only [ssLoopSlideshow, if_pos hi, hs, if_neg hd]
        refine ⟨hrec.1, ?_⟩
        show pollsOf "shotstack" (Effect.poll "shotstack" ::
          (ssLoopSlideshow ownerId events db (i+1) f).1) = 45 - i
        rw [pollsOf_cons_poll_same, hrec.2]
        omega
    · have hi45 : 45 ≤ i := by unfold pollIntervalMs ssPollTimeoutMs at hi; omega
      simp only [ssLoopSlideshow, if_neg hi]
      exact ⟨trivial, by simp [pollsOf]; omega⟩

theorem ssLoopSelfie_waiting (ownerId : String) (events : Nat → SSPollEvent)
    (h : ∀ k, ∃ s, classifySS (events k) = SSPollClass.wait (some s)) :
    ∀ fuel i, 45 - i < fuel →
      (ssLoopSelfie ownerId events i fuel).2 = SSLoopResult.timedOut ∧
      pollsOf "shotstack" (ssLoopSelfie ownerId events i fuel).1 = 45 - i := by
  intro fuel
  induction fuel with
  | zero => intro i hf; exact absurd hf (Nat.not_lt_zero _)
  | succ f ih =>
    intro i hf
    by_cases hi : pollIntervalMs * i < ssPollTimeoutMs
    · have hi45 : i < 45 := by unfold pollIntervalMs ssPollTimeoutMs at hi; omega
      obtain ⟨s, hs⟩ := h i
      have hrec := ih (i+1) (by omega)
      simp only [ssLoopSelfie, if_pos hi, hs]
      refine ⟨hrec.1, ?_⟩
      show pollsOf "shotstack" (Effect.poll "shotstack" ::
        (ssLoopSelfie ownerId events (i+1) f).1) = 45 - i
      rw [pollsOf_cons_poll_same, hrec.2]
      omega
    · have hi45 : 45 ≤ i := by unfold pollIntervalMs ssPollTimeoutMs at hi; omega
      simp only [ssLoopSelfie, if_neg hi]
      exact ⟨trivial, by simp [pollsOf]; omega⟩

theorem hedraLoop_step_waiting (events : Nat → HedraPollEvent) (a f : Nat) (s : String)
    (ha : a < hedraMaxAttempts) (hs : events a = HedraPollEvent.status s none none)
    (hs1 : s ≠ "error") :
    hedraLoop events a (f+1) =
      (Effect.poll "hedra" :: (hedraLoop events (a+1) f).1, (hedraLoop events (a+1) f).2) := by
  simp only [hedraLoop, if_pos ha, hs]
  rw [if_neg (by simp [optTruthy]), if_neg hs1]

theorem hedraLoop_waiting (events : Nat → HedraPollEvent)
    (h : ∀ k, events k = HedraPollEvent.status "pending" none none ∨
              events k = HedraPollEvent.status "processing" none none) :
    ∀ fuel a, 30 - a < fuel →
      (hedraLoop events a fuel).2 = Except.ok none ∧
      pollsOf "hedra" (hedraLoop events a fuel).1 = 30 - a := by
  intro fuel
  induction fuel with
  | zero => intro a hf; exact absurd hf (Nat.not_lt_zero _)
  | succ f ih =>
    intro a hf
    by_cases ha : a < hedraMaxAttempts
    · have ha30 : a < 30 := by unfold hedraMaxAttempts at ha; omega
      have hrec := ih (a+1) (by omega)
      have hstep : hedraLoop events a (f+1) =
          (Effect.poll "hedra" :: (hedraLoop events (a+1) f).1, (hedraLoop events (a+1) f).2) := by
        rcases h a with hs | hs
        · exact hedraLoop_step_waiting events a f "pending" ha hs (by decide)
        · exact hedraLoop_step_waiting events a f "processing" ha hs (by decide)
      rw [hstep]
      refine ⟨hrec.1, ?_⟩
      show pollsOf "hedra" (Effect.poll "hedra" :: (hedraLoop events (a+1) f).1) = 30 - a
      rw [pollsOf_cons_poll_same, hrec.2]
      omega
    · have ha30 : 30 ≤ a := by unfold hedraMaxAttempts at ha; omega
      simp only [hedraLoop, if_neg ha]
      exact ⟨trivial, by simp [pollsOf]; omega⟩

/-- C2: the claim's universal 15-minute ceiling is false for the Hedra loop:
under a vendor that reports `processing` on every poll, the Hedra polling
loop makes exactly 30 polls and then gives up — 30 sleeps of 20 s, i.e.
600000 ms (10 minutes), which is not the 15-minute ceiling. -/
theorem c2_counterexample :
    (pollHedraGenerationStatus "123e4567-e89b-12d3-a456-426614174000"
        (fun _ => HedraPollEvent.status "processing" none none)).2 = Except.ok none ∧
    pollsOf "hedra" (pollHedraGenerationStatus "123e4567-e89b-12d3-a456-426614174000"
        (fun _ => HedraPollEvent.status "processing" none none)).1 = 30 ∧
    30 * pollIntervalMs = 600000 ∧ (600000 : Nat) ≠ ssPollTimeoutMs ∧ 600000 < ssPollTimeoutMs := by
  refine ⟨rfl, by decide, by decide, by decide, by decide⟩

/-- C2 (amended): with a vendor reporting a non-terminal status on every
poll, the two Shotstack polling loops (slideshow and selfie) poll at the
fixed 20-second interval and terminate timed-out after exactly 45 polls —
45 · 20 s = 15 minutes of wall clock, the ceiling, and not before — while
the Hedra polling loop gives up after exactly 30 polls, 30 · 20 s = 10
minutes, so the 15-minute ceiling does not apply to every polling loop. -/
theorem c2_polling_ceilings (ownerId genId : String) (ssEvents : Nat → SSPollEvent)
    (hEvents : Nat → HedraPollEvent)
    (hss : ∀ k, ssEvents k = SSPollEvent.status "queued" none none ∨
                ssEvents k = SSPollEvent.status "rendering" none none)
    (hh : ∀ k, hEvents k = HedraPollEvent.status "pending" none none ∨
               hEvents k = HedraPollEvent.status "processing" none none)
    (hid : hasUuid genId = true) :
    (ssLoopSlideshowRun ownerId ssEvents).2 = SSLoopResult.timedOut ∧
    pollsOf "shotstack" (ssLoopSlideshowRun ownerId ssEvents).1 = 45 ∧
    (ssLoopSelfieRun ownerId ssEvents).2 = SSLoopResult.timedOut ∧
    pollsOf "shotstack" (ssLoopSelfieRun ownerId ssEvents).1 = 45 ∧
    45 * pollIntervalMs = ssPollTimeoutMs ∧
    (pollHedraGenerationStatus genId hEvents).2 = Except.ok none ∧
    pollsOf "hedra" (pollHedraGenerationStatus genId hEvents).1 = 30 ∧
    30 * pollIntervalMs = 600000 ∧ 600000 < ssPollTimeoutMs := by
  have hcl : ∀ k, ∃ s, classifySS (ssEvents k) = SSPollClass.wait (some s) := by
    intro k
    rcases hss k with h | h <;> rw [h]
    · exact ⟨"queued", rfl⟩
    · exact ⟨"rendering", rfl⟩
  have h1 := ssLoopSlideshow_waiting ownerId ssEvents hcl ssLoopFuel 0 "rendering" (by decide)
  have h2 := ssLoopSelfie_waiting ownerId ssEvents hcl ssLoopFuel 0 (by decide)
  have h3 := hedraLoop_waiting hEvents hh hedraLoopFuel 0 (by decide)
  unfold ssLoopSlideshowRun ssLoopSelfieRun pollHedraGenerationStatus
  rw [if_pos hid]
  exact ⟨h1.1, by simpa using h1.2, h2.1, by simpa using h2.2, by decide,
         h3.1, by simpa using h3.2, by decide, by decide⟩

/-- C2 witness: the amended theorem applied to the canonical always-`rendering`
Shotstack vendor and always-`processing` Hedra vendor. -/
theorem c2_witness :
    (ssLoopSlideshowRun "owner42" (fun _ => SSPollEvent.status "rendering" none none)).2 =
      SSLoopResult.timedOut ∧
    pollsOf "shotstack"
      (ssLoopSlideshowRun "owner42" (fun _ => SSPollEvent.status "rendering" none none)).1 = 45 ∧
    (ssLoopSelfieRun "owner42" (fun _ => SSPollEvent.status "rendering" none none)).2 =
      SSLoopResult.timedOut ∧
    pollsOf "shotstack"
      (ssLoopSelfieRun "owner42" (fun _ => SSPollEvent.status "rendering" none none)).1 = 45 ∧
    45 * pollIntervalMs = ssPollTimeoutMs ∧
    (pollHedraGenerationStatus "123e4567-e89b-12d3-a456-426614174000"
        (fun _ => HedraPollEvent.status "processing" none none)).2 = Except.ok none ∧
    pollsOf "hedra" (pollHedraGenerationStatus "123e4567-e89b-12d3-a456-426614174000"
        (fun _ => HedraPollEvent.status "processing" none none)).1 = 30 ∧
    30 * pollIntervalMs = 600000 ∧ 600000 < ssPollTimeoutMs :=
  c2_polling_ceilings "owner42" "123e4567-e89b-12d3-a456-426614174000"
    (fun _ => SSPollEvent.status "rendering" none none)
    (fun _ => HedraPollEvent.status "processing" none none)
    (fun _ => Or.inr rfl) (fun _ => Or.inr rfl) (by decide)

/-! ## Claim C6 — transient poll failures -/

/-- C6: the claim says a network error on a status poll does not fail the
job. In the slideshow worker a rejected poll fetch propagates out of the
loop: the job ends failed (with a `failed` status write) on the very first
poll's network error. -/
theorem c6_counterexample :
    (slideshowWorker (some "https://smhb.example") envNetPoll jdSlideshow).2 =
      Except.error "connect ECONNRESET" ∧
    statusWrites (slideshowWorker (some "https://smhb.example") envNetPoll jdSlideshow).1 =
      ["processing_slideshow", "rendering_slideshow", "failed"] :=
  ⟨rfl, rfl⟩

/-- C6 (amended): in all three polling loops — the slideshow worker's
Shotstack loop, the selfie worker's Shotstack loop and the Hedra loop — a
poll returning an HTTP error status (non-ok, e.g. 5xx) is swallowed: the
loop performs that one poll and carries on exactly as the loop one interval
later. A network-level poll failure (the fetch itself rejecting) is not
swallowed in any of them: it escapes the loop as a thrown error (and fails
the job, as the counterexample shows at worker level). -/
theorem c6_transient_poll_failures (ownerId dbSt m m2 : String) (code1 code2 : Nat)
    (eventsA eventsB : Nat → SSPollEvent) (hEvents hEvents2 : Nat → HedraPollEvent)
    (i j a b fuelA fuelB fuelH : Nat)
    (hi : pollIntervalMs * i < ssPollTimeoutMs)
    (hj : pollIntervalMs * j < ssPollTimeoutMs)
    (ha : a < hedraMaxAttempts) (hb : b < hedraMaxAttempts)
    (hA : eventsA i = SSPollEvent.httpError code1)
    (hH : hEvents a = HedraPollEvent.httpError code2)
    (hB : eventsB j = SSPollEvent.netError m)
    (hN : hEvents2 b = HedraPollEvent.netError m2) :
    ssLoopSlideshow ownerId eventsA dbSt i (fuelA+1) =
      (Effect.poll "shotstack" :: (ssLoopSlideshow ownerId eventsA dbSt (i+1) fuelA).1,
       (ssLoopSlideshow ownerId eventsA dbSt (i+1) fuelA).2) ∧
    ssLoopSelfie ownerId eventsA i (fuelA+1) =
      (Effect.poll "shotstack" :: (ssLoopSelfie ownerId eventsA (i+1) fuelA).1,
       (ssLoopSelfie ownerId eventsA (i+1) fuelA).2) ∧
    hedraLoop hEvents a (fuelH+1) =
      (Effect.poll "hedra" :: (hedraLoop hEvents (a+1) fuelH).1,
       (hedraLoop hEvents (a+1) fuelH).2) ∧
    ssLoopSlideshow ownerId eventsB dbSt j (fuelB+1) =
      ([Effect.poll "shotstack"], SSLoopResult.thrown m) ∧
    ssLoopSelfie ownerId eventsB j (fuelB+1) =
      ([Effect.poll "shotstack"], SSLoopResult.thrown m) ∧
    hedraLoop hEvents2 b (fuelH+1) = ([Effect.poll "hedra"], Except.error m2) := by
  refine ⟨?_, ?_, ?_, ?_, ?_, ?_⟩
  · simp only [ssLoopSlideshow, if_pos hi, hA, classifySS]
  · simp only [ssLoopSelfie, if_pos hi, hA, classifySS]
  · simp only [hedraLoop, if_pos ha, hH]
  · simp only [ssLoopSlideshow, if_pos hj, hB, classifySS]
  · simp only [ssLoopSelfie, if_pos hj, hB, classifySS]
  · simp only [hedraLoop, if_pos hb, hN]

/-- C6 witness: the amended theorem applied to a 503 Shotstack poll, a 500
Hedra poll, a rejected Shotstack fetch and a rejected Hedra fetch, each at
the first attempt. -/
theorem c6_witness :
    ssLoopSlideshow "owner42" (fun _ => SSPollEvent.httpError 503) "rendering" 0 (45+1) =
      (Effect.poll "shotstack" ::
        (ssLoopSlideshow "owner42" (fun _ => SSPollEvent.httpError 503) "rendering" 1 45).1,
       (ssLoopSlideshow "owner42" (fun _ => SSPollEvent.httpError 503) "rendering" 1 45).2) ∧
    ssLoopSelfie "owner42" (fun _ => SSPollEvent.httpError 503) 0 (45+1) =
      (Effect.poll "shotstack" ::
        (ssLoopSelfie "owner42" (fun _ => SSPollEvent.httpError 503) 1 45).1,
       (ssLoopSelfie "owner42" (fun _ => SSPollEvent.httpError 503) 1 45).2) ∧
    hedraLoop (fun _ => HedraPollEvent.httpError 500) 0 (30+1) =
      (Effect.poll "hedra" :: (hedraLoop (fun _ => HedraPollEvent.httpError 500) 1 30).1,
       (hedraLoop (fun _ => HedraPollEvent.httpError 500) 1 30).2) ∧
    ssLoopSlideshow "owner42" (fun _ => SSPollEvent.netError "socket hang up") "rendering" 0 (45+1) =
      ([Effect.poll "shotstack"], SSLoopResult.thrown "socket hang up") ∧
    ssLoopSelfie "owner42" (fun _ => SSPollEvent.netError "socket hang up") 0 (45+1) =
      ([Effect.poll "shotstack"], SSLoopResult.thrown "socket hang up") ∧
    hedraLoop (fun _ => HedraPollEvent.netError "read ECONNRESET") 0 (30+1) =
      ([Effect.poll "hedra"], Except.error "read ECONNRESET") :=
  c6_transient_poll_failures "owner42" "rendering" "socket hang up" "read ECONNRESET" 503 500
    (fun _ => SSPollEvent.httpError 503) (fun _ => SSPollEvent.netError "socket hang up")
    (fun _ => HedraPollEvent.httpError 500) (fun _ => HedraPollEvent.netError "read ECONNRESET")
    0 0 0 0 45 45 30
    (by decide) (by decide) (by decide) (by decide) rfl rfl rfl rfl

/-! ## Claim C9 — image merge-field fallback chain -/

theorem getD_mem_of_lt {l : List String} {n : Nat} (h : n < l.length) : l.getD n "" ∈ l := by
  rw [List.getD_eq_getElem?_getD, List.getElem?_eq_getElem h, Option.getD_some]
  exact List.getElem_mem h

theorem getImageWithFallback_mem (images : List String) (p f : Nat) (h0 : 0 < images.length) :
    getImageWithFallback images p f ∈ images := by
  unfold getImageWithFallback
  split_ifs with h1 h2
  · exact getD_mem_of_lt h1.1
  · exact getD_mem_of_lt h2.1
  · exact getD_mem_of_lt h0

theorem getImageWithFallback_eq (images : List String) (p f : Nat) (hf : f < images.length) :
    getImageWithFallback images p f =
      if p < images.length ∧ images.getD p "" ≠ "" then images.getD p ""
      else if images.getD f "" ≠ "" then images.getD f "" else images.getD 0 "" := by
  unfold getImageWithFallback
  by_cases h1 : p < images.length ∧ images.getD p "" ≠ ""
  · rw [if_pos h1, if_pos h1]
  · rw [if_neg h1, if_neg h1]
    by_cases h2 : images.getD f "" ≠ ""
    · rw [if_pos ⟨hf, h2⟩, if_pos h2]
    · rw [if_neg (fun hc => h2 hc.2), if_neg h2]

/-- C9: the claim says `image5` is element 4 if present and non-empty, else
element 1. With `imageUrls = [a, "", c, d]` element 4 is absent and element 1
is the empty string, and the code falls through to element 0: the `image5`
merge field is `a`, not element 1. -/
theorem c9_counterexample :
    (buildSlideshowMergeFields jdC9 "music").lookup "image5" = some "https://img/a.jpg" ∧
    jdC9.imageUrls.getD 1 "" = "" ∧ jdC9.imageUrls.getD 4 "" = "" ∧
    ¬ (buildSlideshowMergeFields jdC9 "music").lookup "image5" =
        some (jdC9.imageUrls.getD 1 "") := by
  refine ⟨by decide, by decide, by decide, by decide⟩

/-- C9 (amended): with at least 4 images, slots 1-4 are elements 0-3; slot 5
is element 4 if present and non-empty, else element 1 if non-empty, else
element 0; slot 6 likewise with elements 5/2/0; slot 7 with elements 6/0;
every slot's value is an element of `imageUrls`. With an empty `imageUrls`
all seven slots get `themeRenderUrl`. -/
theorem c9_image_merge_fields (jd : BirthdaySlideshowJobData) (musicS3Url : String) :
    (4 ≤ jd.imageUrls.length →
      buildSlideshowMergeFields jd musicS3Url = slideshowTextFields jd musicS3Url ++
        [("image1", jd.imageUrls.getD 0 ""), ("image2", jd.imageUrls.getD 1 ""),
         ("image3", jd.imageUrls.getD 2 ""), ("image4", jd.imageUrls.getD 3 ""),
         ("image5",
           if 4 < jd.imageUrls.length ∧ jd.imageUrls.getD 4 "" ≠ "" then jd.imageUrls.getD 4 ""
           else if jd.imageUrls.getD 1 "" ≠ "" then jd.imageUrls.getD 1 ""
           else jd.imageUrls.getD 0 ""),
         ("image6",
           if 5 < jd.imageUrls.length ∧ jd.imageUrls.getD 5 "" ≠ "" then jd.imageUrls.getD 5 ""
           else if jd.imageUrls.getD 2 "" ≠ "" then jd.imageUrls.getD 2 ""
           else jd.imageUrls.getD 0 ""),
         ("image7",
           if 6 < jd.imageUrls.length ∧ jd.imageUrls.getD 6 "" ≠ "" then jd.imageUrls.getD 6 ""
           else if jd.imageUrls.getD 0 "" ≠ "" then jd.imageUrls.getD 0 ""
           else jd.imageUrls.getD 0 "")] ∧
      jd.imageUrls.getD 0 "" ∈ jd.imageUrls ∧ jd.imageUrls.getD 1 "" ∈ jd.imageUrls ∧
      jd.imageUrls.getD 2 "" ∈ jd.imageUrls ∧ jd.imageUrls.getD 3 "" ∈ jd.imageUrls ∧
      getImageWithFallback jd.imageUrls 4 1 ∈ jd.imageUrls ∧
      getImageWithFallback jd.imageUrls 5 2 ∈ jd.imageUrls ∧
      getImageWithFallback jd.imageUrls 6 0 ∈ jd.imageUrls) ∧
    (jd.imageUrls = [] →
      buildSlideshowMergeFields jd musicS3Url = slideshowTextFields jd musicS3Url ++
        (List.range 7).map (fun i => ("image" ++ toString (i+1), jd.themeRenderUrl))) := by
  constructor
  · intro h4
    have hne : ¬(jd.imageUrls.length = 0) := by omega
    refine ⟨?_, getD_mem_of_lt (by omega), getD_mem_of_lt (by omega), getD_mem_of_lt (by omega),
      getD_mem_of_lt (by omega), getImageWithFallback_mem _ 4 1 (by omega),
      getImageWithFallback_mem _ 5 2 (by omega), getImageWithFallback_mem _ 6 0 (by omega)⟩
    simp only [buildSlideshowMergeFields]
    rw [if_neg hne]
    rw [getImageWithFallback_eq _ 4 1 (by omega), getImageWithFallback_eq _ 5 2 (by omega),
        getImageWithFallback_eq _ 6 0 (by omega)]
  · intro h0
    simp [buildSlideshowMergeFields, h0]

/-- C9 witness: the amended theorem applied to the four-image fixture. -/
theorem c9_witness :
    4 ≤ jdSlideshow.imageUrls.length ∧
    getImageWithFallback jdSlideshow.imageUrls 4 1 ∈ jdSlideshow.imageUrls :=
  ⟨by decide, ((c9_image_merge_fields jdSlideshow "music").1 (by decide)).2.2.2.2.2.1⟩

/-! ## Claim C1 — status monotonicity -/

/-- C1: the claim fails on the slideshow worker. With every stage succeeding
but the notification enqueue rejecting, the `complete` status write is
followed by a `failed` status write from the catch-all handler, so a
terminal status is not final. -/
theorem c1_counterexample :
    statusWrites (slideshowWorker (some "https://smhb.example") envNotifyFail jdSlideshow).1 =
      ["processing_slideshow", "rendering_slideshow", "complete", "failed"] ∧
    noWriteAfterTerminal (statusWrites
      (slideshowWorker (some "https://smhb.example") envNotifyFail jdSlideshow).1) = false ∧
    (slideshowWorker (some "https://smhb.example") envNotifyFail jdSlideshow).2 =
      Except.error "Redis connection lost" :=
  ⟨rfl, rfl, rfl⟩

/-- C1 (amended): in every slideshow worker run, once `failed` is written
every later status write is again `failed` (the timed-out path writes
`failed` twice), and if the notification enqueue does not fail then no
status write follows a `complete` write; a notification-enqueue failure
after the `complete` write, however, causes one further `failed` write. -/
theorem c1_status_monotonicity (siteUrl : Option String) (env : SlideshowEnv)
    (jd : BirthdaySlideshowJobData) :
    failedSticky (statusWrites (slideshowWorker siteUrl env jd).1) = true ∧
    (env.notifyAdd = Except.ok () →
      noWriteAfterComplete (statusWrites (slideshowWorker siteUrl env jd).1) = true) := by
  unfold slideshowWorker slideshowWorkerCore
  rcases hk : jd.shotstackApiKey with _ | apiKey
  · refine ⟨?_, fun _ => ?_⟩ <;>
      · simp [hk, statusWrites_append, statusWrites_cons, statusWrites_nil]
        try decide
  rcases ho : jd.shotstackOwnerId with _ | ownerId
  · refine ⟨?_, fun _ => ?_⟩ <;>
      · simp [hk, ho, statusWrites_append, statusWrites_cons, statusWrites_nil]
        try decide
  rcases hs : submitToShotstack env jd with ⟨trS, rS⟩
  have hsub : statusWrites trS = [] := by
    have h := (submitToShotstack_trace_shape env jd).1
    rw [hs] at h
    exact h
  cases rS with
  | error m =>
    refine ⟨?_, fun _ => ?_⟩ <;>
      · simp [hk, ho, hs, hsub, statusWrites_append, statusWrites_cons, statusWrites_nil]
        try decide
  | ok renderId =>
    rcases hl : ssLoopSlideshowRun ownerId env.pollEvents with ⟨trL, rL⟩
    have hLs : statusWrites trL = [] := by
      have h := ssLoopSlideshowRun_statusWrites ownerId env.pollEvents
      rw [hl] at h
      exact h
    cases rL with
    | done url =>
      rcases hp : publishStep siteUrl env jd renderId with ⟨trP, link⟩
      have hPs : statusWrites trP = [] := by
        have h := (publishStep_trace_shape siteUrl env jd renderId).1
        rw [hp] at h
        exact h
      cases hn : env.notifyAdd with
      | error m =>
        refine ⟨?_, fun hok => ?_⟩
        · simp [hk, ho, hs, hl, hp, hn, hsub, hLs, hPs, statusWrites_append,
                statusWrites_cons, statusWrites_nil]
          try decide
        · exact absurd hok (by simp [hn])
      | ok u =>
        refine ⟨?_, fun _ => ?_⟩ <;>
          · simp [hk, ho, hs, hl, hp, hn, hsub, hLs, hPs, statusWrites_append,
                  statusWrites_cons, statusWrites_nil]
            try decide
    | renderFailed m =>
      refine ⟨?_, fun _ => ?_⟩ <;>
        · simp [hk, ho, hs, hl, hsub, hLs, statusWrites_append, statusWrites_cons,
                statusWrites_nil]
          try decide
    | timedOut =>
      refine ⟨?_, fun _ => ?_⟩ <;>
        · simp [hk, ho, hs, hl, hsub, hLs, statusWrites_append, statusWrites_cons,
                statusWrites_nil]
          try decide
    | thrown m =>
      refine ⟨?_, fun _ => ?_⟩ <;>
        · simp [hk, ho, hs, hl, hsub, hLs, statusWrites_append, statusWrites_cons,
                statusWrites_nil]
          try decide

/-- C1 witness: the amended theorem applied to the fully successful run,
whose status writes are processing, rendering, complete and nothing after. -/
theorem c1_witness :
    envHappy.notifyAdd = Except.ok () ∧
    noWriteAfterComplete (statusWrites
      (slideshowWorker (some "https://smhb.example") envHappy jdSlideshow).1) = true ∧
    failedSticky (statusWrites
      (slideshowWorker (some "https://smhb.example") envHappy jdSlideshow).1) = true :=
  ⟨rfl, (c1_status_monotonicity (some "https://smhb.example") envHappy jdSlideshow).2 rfl,
   (c1_status_monotonicity (some "https://smhb.example") envHappy jdSlideshow).1⟩

/-! ## Claim C7 — publish failure is non-fatal -/

/-- C7: in any slideshow run that reaches the publish step (submit succeeded,
polling ended `done`) with a failing public-share insert and a succeeding
notification enqueue, the job still ends `ok`, the status writes end at
`complete` with no `failed` write, and exactly one `card_ready` notification
is enqueued carrying the fallback site-root link. -/
theorem c7_publish_failure_nonfatal (siteUrl : Option String) (env : SlideshowEnv)
    (jd : BirthdaySlideshowJobData) (apiKey ownerId renderId url : String)
    (trS trL : List Effect)
    (hk : jd.shotstackApiKey = some apiKey) (ho : jd.shotstackOwnerId = some ownerId)
    (hs : submitToShotstack env jd = (trS, Except.ok renderId))
    (hl : ssLoopSlideshowRun ownerId env.pollEvents = (trL, SSLoopResult.done url))
    (hp : env.publishInsert = Except.error ()) (hn : env.notifyAdd = Except.ok ()) :
    (slideshowWorker siteUrl env jd).2 = Except.ok () ∧
    statusWrites (slideshowWorker siteUrl env jd).1 =
      ["processing_slideshow", "rendering_slideshow", "complete"] ∧
    notifications (slideshowWorker siteUrl env jd).1 =
      [(jd.userId, "card_ready",
        "Your Birthday Slideshow \"" ++ jsOr jd.displayName (jsOr jd.recipientName "your slideshow")
          ++ "\" is ready! Click here to view.",
        jsOrOpt siteUrl "http://localhost:3000")] := by
  have hsubS : statusWrites trS = [] := by
    have h := (submitToShotstack_trace_shape env jd).1
    rw [hs] at h
    exact h
  have hsubN : notifications trS = [] := by
    have h := (submitToShotstack_trace_shape env jd).2
    rw [hs] at h
    exact h
  have hLS : statusWrites trL = [] := by
    have h := ssLoopSlideshowRun_statusWrites ownerId env.pollEvents
    rw [hl] at h
    exact h
  have hLN : notifications trL = [] := by
    have h := ssLoopSlideshowRun_notifications ownerId env.pollEvents
    rw [hl] at h
    exact h
  unfold slideshowWorker slideshowWorkerCore publishStep
  by_cases hc : jd.myCardId ≠ "" ∧ renderId ≠ ""
  all_goals
    refine ⟨?_, ?_, ?_⟩ <;>
      · simp [hk, ho, hs, hl, hn, hp, hc, hsubS, hsubN, hLS, hLN, statusWrites_append,
              notifications_append, statusWrites_cons, statusWrites_nil,
              notifications_cons, notifications_nil]
        try decide

/-- C7 witness: the theorem applied to the concrete run whose public-share
insert reports an error value. -/
theorem c7_witness :
    (slideshowWorker (some "https://smhb.example") envPubFail jdSlideshow).2 = Except.ok () ∧
    statusWrites (slideshowWorker (some "https://smhb.example") envPubFail jdSlideshow).1 =
      ["processing_slideshow", "rendering_slideshow", "complete"] ∧
    notifications (slideshowWorker (some "https://smhb.example") envPubFail jdSlideshow).1 =
      [(jdSlideshow.userId, "card_ready",
        "Your Birthday Slideshow \"" ++
          jsOr jdSlideshow.displayName (jsOr jdSlideshow.recipientName "your slideshow")
          ++ "\" is ready! Click here to view.",
        jsOrOpt (some "https://smhb.example") "http://localhost:3000")] :=
  c7_publish_failure_nonfatal (some "https://smhb.example") envPubFail jdSlideshow
    "key" "owner42" "render-1" "https://cdn.shotstack.io/au/v1/owner42/abcd.mp4"
    [Effect.vendorCall "shotstack-submit"] [Effect.poll "shotstack"]
    rfl rfl rfl rfl rfl rfl

end SMHB
